import Mathlib

/-!
Shallow embedding of the planning and alerting engine of the
Ahrhoff Stock Planner (file `src/calculations.ts`, types from
`src/agristock-pro/src/types.ts`).

Modelling conventions:

* JavaScript `number` values are modelled as rationals (`ℚ`), with exact
  arithmetic.
* `Date` values and ISO date strings are modelled by their epoch value in
  milliseconds (`ℚ`).  The only calendar operations the engine performs are
  `getTime`, `getFullYear` and `getMonth`, so a `DateTime` carries the epoch
  time together with the (already extracted) year and 0-based month.
* The calendar month key string `"YYYY-MM"` is modelled as the pair
  `(year, month)` with a 1-based month, which the string determines uniquely.
* `Math.ceil` on a rational is `Rat.ceil`; `Math.round` is `jsRound`
  (floor of `q + 1/2`, which is exactly the JavaScript rounding rule).
* Optional fields (`expiryDate : string | null`, `shelfLifeDays?`,
  `lastSentAt?`) are `Option` values; `??` is `Option.getD`.
* The truthiness test `item.leadTimeDays || settings.defaultLeadTimeDays`
  is modelled as a comparison with 0, the only falsy value of a numeric
  field here.
* `detectAlerts` reads the clock once (`const now = new Date()`); that
  value is passed explicitly as the parameter `now`.
* Fields of `Settings` that only configure the excluded I/O collaborators
  (currency symbol, WhatsApp and webhook configuration) are omitted; the
  engine never reads them.
-/

inductive LotStatus where
  | available
  | expired
  | damaged
deriving DecidableEq

inductive ForecastMethod where
  | simpleAverage6Months
  | weightedAverage
deriving DecidableEq

inductive LowStockRule where
  | belowDaysCover
  | belowReorderPoint
deriving DecidableEq

inductive AlertType where
  | lowStock
  | expiry
deriving DecidableEq

inductive AlertStatus where
  | pending
  | sent
  | dismissed
deriving DecidableEq

/-- Product master data (`Item` in `types.ts`). -/
structure Item where
  id : String
  skuCode : String
  name : String
  category : String
  packSize : ℚ
  leadTimeDays : ℚ
  moq : ℚ
  costPerUnit : ℚ
  shelfLifeDays : Option ℚ
deriving DecidableEq

/-- Physical batch of a product (`InventoryLot` in `types.ts`). -/
structure InventoryLot where
  id : String
  itemId : String
  lotNumber : String
  expiryDate : Option ℚ
  quantityRemaining : ℚ
  receivedDate : Option ℚ
  quantityReceived : Option ℚ
  status : LotStatus
deriving DecidableEq

/-- Monthly sales record (`SalesHistory` in `types.ts`); `month` is the
pair (year, 1-based month) encoded by the string `"YYYY-MM"`. -/
structure SalesHistory where
  id : String
  itemId : String
  month : ℤ × ℤ
  quantitySold : ℚ
deriving DecidableEq

/-- Global policy settings (`Settings` in `types.ts`), engine-relevant
fields only. -/
structure Settings where
  defaultLeadTimeDays : ℚ
  safetyStockDays : ℚ
  reviewPeriodDays : ℚ
  lowStockDaysCoverThreshold : ℚ
  expiryWarningDays : ℚ
  notificationCooldownHours : ℚ
  forecastMethod : ForecastMethod
  weights : List ℚ
  lowStockRule : LowStockRule
deriving DecidableEq

/-- A JavaScript `Date`: epoch milliseconds plus the extracted calendar
fields used by the engine (`getFullYear`, 0-based `getMonth`). -/
structure DateTime where
  time : ℚ
  year : ℤ
  month : ℤ
deriving DecidableEq

/-- Alert record (`InventoryAlert` in `types.ts`); `createdAt` and
`lastSentAt` are epoch-millisecond timestamps. -/
structure InventoryAlert where
  id : String
  createdAt : ℚ
  itemId : String
  type : AlertType
  message : String
  status : AlertStatus
  lastSentAt : Option ℚ
  recipientsSnapshot : Option (List String)
deriving DecidableEq

/-- Derived planning view (`ItemPlanningView` in `types.ts`). -/
structure ItemPlanningView where
  item : Item
  lots : List InventoryLot
  sales : List SalesHistory
  availableStock : ℚ
  avgMonthlyDemand : ℚ
  dailyDemand : ℚ
  safetyStock : ℚ
  reorderPoint : ℚ
  suggestedOrderQty : ℚ
  freshnessCapApplied : Bool
  freshnessCapQty : ℚ
  projectedDaysCoverAfterOrder : ℚ
  daysCover : ℚ
  lowStockFlag : Bool
  expiringSoonLots : List InventoryLot
deriving DecidableEq

/-- Key of the i-th month before the current one, as built by
`new Date(year, month - i, 1)` (the constructor normalises month
underflow) and formatted as `"YYYY-MM"`.  For the positive divisor 12 the
Lean integer division is floor division, which matches the JavaScript
`Date` normalisation. -/
def monthKey (year month : ℤ) (i : ℕ) : ℤ × ℤ :=
  (year + (month - (i : ℤ)) / 12, (month - (i : ℤ)) % 12 + 1)

/-- The list `last6Months` of `calculateItemPlanning`: the 6 calendar
months ending at the current one, oldest first. -/
def last6MonthsOf (currentDate : DateTime) : List (ℤ × ℤ) :=
  ((List.range 6).map (fun i => monthKey currentDate.year currentDate.month i)).reverse

/-- `sales.filter(s => s.itemId === item.id)`. -/
def itemSalesOf (item : Item) (sales : List SalesHistory) : List SalesHistory :=
  sales.filter (fun s => decide (s.itemId = item.id))

/-- `lots.filter(l => l.itemId === item.id && l.status === 'available')`. -/
def activeLotsOf (item : Item) (lots : List InventoryLot) : List InventoryLot :=
  lots.filter (fun l => decide (l.itemId = item.id) && decide (l.status = LotStatus.available))

/-- `activeLots.filter(l => l.expiryDate ? new Date(l.expiryDate) > currentDate : true)`. -/
def nonExpiredLotsOf (item : Item) (lots : List InventoryLot) (currentDate : DateTime) :
    List InventoryLot :=
  (activeLotsOf item lots).filter (fun l =>
    match l.expiryDate with
    | some e => decide (currentDate.time < e)
    | none => true)

/-- The `expiringSoonLots` filter: lots with an expiry date whose distance
to now, in days, is positive and at most `settings.expiryWarningDays`. -/
def expiringSoonLotsOf (item : Item) (lots : List InventoryLot) (settings : Settings)
    (currentDate : DateTime) : List InventoryLot :=
  (activeLotsOf item lots).filter (fun l =>
    match l.expiryDate with
    | none => false
    | some e =>
      decide ((e - currentDate.time) / (1000 * 3600 * 24) ≤ settings.expiryWarningDays) &&
        decide (0 < (e - currentDate.time) / (1000 * 3600 * 24)))

/-- `nonExpiredLots.reduce((sum, lot) => sum + lot.quantityRemaining, 0)`. -/
def availableStockOf (item : Item) (lots : List InventoryLot) (currentDate : DateTime) : ℚ :=
  (nonExpiredLotsOf item lots currentDate).foldl (fun sum lot => sum + lot.quantityRemaining) 0

/-- `itemSales.find(s => s.month === month)?.quantitySold || 0`. -/
def monthSaleOf (itemSales : List SalesHistory) (month : ℤ × ℤ) : ℚ :=
  match itemSales.find? (fun s => decide (s.month = month)) with
  | some s => s.quantitySold
  | none => 0

/-- One iteration of the `last6Months.forEach` loop of the weighted
forecast, accumulating the pair (weightedSum, weightSum).  `p.1` is the
positional index `idx`, `p.2` the month key; `settings.weights[idx] || 0`
is `getD` with default 0. -/
def forecastStep (itemSales : List SalesHistory) (weights : List ℚ) (acc : ℚ × ℚ)
    (p : ℕ × (ℤ × ℤ)) : ℚ × ℚ :=
  (acc.1 + monthSaleOf itemSales p.2 * weights.getD p.1 0, acc.2 + weights.getD p.1 0)

/-- Step 3 of `calculateItemPlanning`: the average monthly demand under the
configured forecast method. -/
def avgMonthlyDemandOf (item : Item) (sales : List SalesHistory) (settings : Settings)
    (currentDate : DateTime) : ℚ :=
  let itemSales := itemSalesOf item sales
  match settings.forecastMethod with
  | ForecastMethod.simpleAverage6Months =>
    let totalSold := itemSales.foldl (fun sum s => sum + s.quantitySold) 0
    if 0 < itemSales.length then totalSold / ((max itemSales.length 1 : ℕ) : ℚ) else 0
  | ForecastMethod.weightedAverage =>
    let ws := (last6MonthsOf currentDate).enum.foldl (forecastStep itemSales settings.weights)
      (0, 0)
    if 0 < ws.2 then ws.1 / ws.2 else 0

/-- `dailyDemand = avgMonthlyDemand / 30.4`. -/
def dailyDemandOf (item : Item) (sales : List SalesHistory) (settings : Settings)
    (currentDate : DateTime) : ℚ :=
  avgMonthlyDemandOf item sales settings currentDate / (30.4 : ℚ)

/-- `leadTime = item.leadTimeDays || settings.defaultLeadTimeDays` (0 is
the only falsy numeric value in range). -/
def leadTimeOf (item : Item) (settings : Settings) : ℚ :=
  if item.leadTimeDays = 0 then settings.defaultLeadTimeDays else item.leadTimeDays

/-- `safetyStock = dailyDemand * settings.safetyStockDays`. -/
def safetyStockOf (item : Item) (sales : List SalesHistory) (settings : Settings)
    (currentDate : DateTime) : ℚ :=
  dailyDemandOf item sales settings currentDate * settings.safetyStockDays

/-- `reorderPoint = dailyDemand * leadTime + safetyStock`. -/
def reorderPointOf (item : Item) (sales : List SalesHistory) (settings : Settings)
    (currentDate : DateTime) : ℚ :=
  dailyDemandOf item sales settings currentDate * leadTimeOf item settings +
    safetyStockOf item sales settings currentDate

/-- Step 5: `suggested = max(0, reorderPoint + dailyDemand * reviewPeriodDays - availableStock)`. -/
def rawSuggestedOf (item : Item) (lots : List InventoryLot) (sales : List SalesHistory)
    (settings : Settings) (currentDate : DateTime) : ℚ :=
  max 0 (reorderPointOf item sales settings currentDate +
    dailyDemandOf item sales settings currentDate * settings.reviewPeriodDays -
    availableStockOf item lots currentDate)

/-- `shelfLifeDays = item.shelfLifeDays ?? 365`. -/
def shelfLifeOf (item : Item) : ℚ :=
  item.shelfLifeDays.getD 365

/-- `maxFreshStock = dailyDemand * shelfLifeDays * 0.8`. -/
def maxFreshStockOf (item : Item) (sales : List SalesHistory) (settings : Settings)
    (currentDate : DateTime) : ℚ :=
  dailyDemandOf item sales settings currentDate * shelfLifeOf item * (0.8 : ℚ)

/-- `capQty = max(0, maxFreshStock - availableStock)`. -/
def capQtyOf (item : Item) (lots : List InventoryLot) (sales : List SalesHistory)
    (settings : Settings) (currentDate : DateTime) : ℚ :=
  max 0 (maxFreshStockOf item sales settings currentDate -
    availableStockOf item lots currentDate)

/-- `suggested = min(suggested, capQty)`: the freshness-capped quantity. -/
def cappedSuggestedOf (item : Item) (lots : List InventoryLot) (sales : List SalesHistory)
    (settings : Settings) (currentDate : DateTime) : ℚ :=
  min (rawSuggestedOf item lots sales settings currentDate)
    (capQtyOf item lots sales settings currentDate)

/-- The MOQ raise: `if (suggested > 0 && suggested < item.moq) suggested = item.moq`. -/
def moqAdjust (item : Item) (q : ℚ) : ℚ :=
  if 0 < q ∧ q < item.moq then item.moq else q

/-- The mathematical ceiling on `ℚ`, computed through the executable
`Rat.floor`; `ratCeil_intCeil` below proves it equal to the canonical
`Int.ceil`, so it models `Math.ceil` exactly. -/
def ratCeil (q : ℚ) : ℤ :=
  -Rat.floor (-q)

/-- The pack rounding:
`if (suggested > 0 && item.packSize > 0) suggested = Math.ceil(suggested / item.packSize) * item.packSize`. -/
def packAdjust (item : Item) (q : ℚ) : ℚ :=
  if 0 < q ∧ 0 < item.packSize then
    (ratCeil (q / item.packSize) : ℚ) * item.packSize
  else q

/-- The final suggested order quantity: MOQ raise then pack rounding,
both applied after the freshness cap. -/
def finalSuggestedOf (item : Item) (lots : List InventoryLot) (sales : List SalesHistory)
    (settings : Settings) (currentDate : DateTime) : ℚ :=
  packAdjust item (moqAdjust item (cappedSuggestedOf item lots sales settings currentDate))

/-- `daysCover = dailyDemand > 0 ? availableStock / dailyDemand : 999`. -/
def daysCoverOf (item : Item) (lots : List InventoryLot) (sales : List SalesHistory)
    (settings : Settings) (currentDate : DateTime) : ℚ :=
  if 0 < dailyDemandOf item sales settings currentDate then
    availableStockOf item lots currentDate / dailyDemandOf item sales settings currentDate
  else 999

/-- `projectedDaysCoverAfterOrder`, under the same sentinel rule. -/
def projectedDaysCoverOf (item : Item) (lots : List InventoryLot) (sales : List SalesHistory)
    (settings : Settings) (currentDate : DateTime) : ℚ :=
  if 0 < dailyDemandOf item sales settings currentDate then
    (availableStockOf item lots currentDate + finalSuggestedOf item lots sales settings currentDate) /
      dailyDemandOf item sales settings currentDate
  else 999

/-- The configurable low-stock rule of step 6. -/
def lowStockFlagOf (item : Item) (lots : List InventoryLot) (sales : List SalesHistory)
    (settings : Settings) (currentDate : DateTime) : Bool :=
  match settings.lowStockRule with
  | LowStockRule.belowDaysCover =>
    decide (daysCoverOf item lots sales settings currentDate < settings.lowStockDaysCoverThreshold)
  | LowStockRule.belowReorderPoint =>
    decide (availableStockOf item lots currentDate < reorderPointOf item sales settings currentDate)

/-- The planning calculator `calculateItemPlanning` of `src/calculations.ts`,
assembled from the step functions above. -/
def calculateItemPlanning (item : Item) (lots : List InventoryLot) (sales : List SalesHistory)
    (settings : Settings) (currentDate : DateTime) : ItemPlanningView :=
  { item := item
    lots := activeLotsOf item lots
    sales := itemSalesOf item sales
    availableStock := availableStockOf item lots currentDate
    avgMonthlyDemand := avgMonthlyDemandOf item sales settings currentDate
    dailyDemand := dailyDemandOf item sales settings currentDate
    safetyStock := safetyStockOf item sales settings currentDate
    reorderPoint := reorderPointOf item sales settings currentDate
    suggestedOrderQty := finalSuggestedOf item lots sales settings currentDate
    freshnessCapApplied :=
      decide (cappedSuggestedOf item lots sales settings currentDate <
        rawSuggestedOf item lots sales settings currentDate)
    freshnessCapQty := capQtyOf item lots sales settings currentDate
    projectedDaysCoverAfterOrder := projectedDaysCoverOf item lots sales settings currentDate
    daysCover := daysCoverOf item lots sales settings currentDate
    lowStockFlag := lowStockFlagOf item lots sales settings currentDate
    expiringSoonLots := expiringSoonLotsOf item lots settings currentDate }

/-- The JavaScript `Math.round` (half rounds towards positive infinity). -/
def jsRound (q : ℚ) : ℤ :=
  Rat.floor (q + 1 / 2)

/-- The suppression predicate of `detectAlerts`, duplicated verbatim in the
source for both alert types: an existing alert for the same product and
type that is pending, or whose `lastSentAt` lies within the cooldown
window.  An alert without `lastSentAt` never suppresses through the
timestamp branch. -/
def isRecentAlertPred (itemId : String) (t : AlertType) (now cooldownHours : ℚ)
    (a : InventoryAlert) : Bool :=
  decide (a.itemId = itemId) && decide (a.type = t) &&
    (decide (a.status = AlertStatus.pending) ||
      (match a.lastSentAt with
       | some ts => decide ((now - ts) / (1000 * 3600) < cooldownHours)
       | none => false))

/-- Rendering of a nullable expiry date inside a template literal. -/
def expiryDateText (e : Option ℚ) : String :=
  match e with
  | some t => toString t
  | none => "null"

/-- The low-stock alert object pushed by `detectAlerts`. -/
def mkLowStockAlert (view : ItemPlanningView) (now : ℚ) : InventoryAlert :=
  { id := "lowStock_" ++ view.item.id ++ "_" ++ toString now
    createdAt := now
    itemId := view.item.id
    type := AlertType.lowStock
    message := "Low Stock: " ++ view.item.name ++ " | Current: " ++
      toString view.availableStock ++ " | Days Cover: " ++ toString (jsRound view.daysCover)
    status := AlertStatus.pending
    lastSentAt := none
    recipientsSnapshot := none }

/-- The expiry alert object pushed by `detectAlerts`. -/
def mkExpiryAlert (view : ItemPlanningView) (now : ℚ) : InventoryAlert :=
  { id := "expiry_" ++ view.item.id ++ "_" ++ toString now
    createdAt := now
    itemId := view.item.id
    type := AlertType.expiry
    message := "Expiry Warning: " ++ view.item.name ++ " | Lots: " ++
      String.intercalate ", "
        (view.expiringSoonLots.map
          (fun l => l.lotNumber ++ " (exp. " ++ expiryDateText l.expiryDate ++ ")"))
    status := AlertStatus.pending
    lastSentAt := none
    recipientsSnapshot := none }

/-- The alerts contributed by one planning view inside the
`planningViews.forEach` loop of `detectAlerts`: at most one low-stock and
one expiry alert, each emitted only when no suppressing alert exists in
`existingAlerts` (the loop only consults `existingAlerts`, never the
alerts pushed earlier in the same call). -/
def alertsForView (view : ItemPlanningView) (existingAlerts : List InventoryAlert)
    (settings : Settings) (now : ℚ) : List InventoryAlert :=
  (if view.lowStockFlag then
    match existingAlerts.find?
        (isRecentAlertPred view.item.id AlertType.lowStock now settings.notificationCooldownHours) with
    | some _ => []
    | none => [mkLowStockAlert view now]
  else []) ++
  (if 0 < view.expiringSoonLots.length then
    match existingAlerts.find?
        (isRecentAlertPred view.item.id AlertType.expiry now settings.notificationCooldownHours) with
    | some _ => []
    | none => [mkExpiryAlert view now]
  else [])

/-- The alert detector `detectAlerts` of `src/calculations.ts`.  The
`forEach` push loop is rendered as the concatenation of the per-view
contributions, in view order. -/
def detectAlerts (planningViews : List ItemPlanningView)
    (existingAlerts : List InventoryAlert) (settings : Settings) (now : ℚ) :
    List InventoryAlert :=
  planningViews.flatMap (fun view => alertsForView view existingAlerts settings now)

/-- The qualifying condition of each alert type: the low-stock flag for
low-stock alerts, a non-empty `expiringSoonLots` for expiry alerts. -/
def qualifiesFor (view : ItemPlanningView) (t : AlertType) : Prop :=
  match t with
  | AlertType.lowStock => view.lowStockFlag = true
  | AlertType.expiry => 0 < view.expiringSoonLots.length

/-- Sample product used by the concrete witnesses: pack size 3, MOQ 5,
lead time 14 days, shelf life 365 days. -/
def sampleItem : Item :=
  { id := "A", skuCode := "SKU-1", name := "Prod", category := "Other",
    packSize := 3, leadTimeDays := 14, moq := 5, costPerUnit := 2,
    shelfLifeDays := some 365 }

/-- A lot of 999 units with no expiry date. -/
def lot999 : InventoryLot :=
  { id := "L1", itemId := "A", lotNumber := "LOT-1", expiryDate := none,
    quantityRemaining := 999, receivedDate := none, quantityReceived := none,
    status := LotStatus.available }

/-- A lot of 50 units expiring 10 days after epoch 0. -/
def lotSoon : InventoryLot :=
  { id := "L2", itemId := "A", lotNumber := "LOT-2",
    expiryDate := some 864000000, quantityRemaining := 50,
    receivedDate := none, quantityReceived := none,
    status := LotStatus.available }

/-- One sales record of 30.4 units, which makes the daily demand exactly 1. -/
def sale304 : SalesHistory :=
  { id := "S1", itemId := "A", month := (2026, 9), quantitySold := (30.4 : ℚ) }

/-- The default settings of `constants.ts` (engine-relevant fields). -/
def sampleSettings : Settings :=
  { defaultLeadTimeDays := 14, safetyStockDays := 7, reviewPeriodDays := 7,
    lowStockDaysCoverThreshold := 21, expiryWarningDays := 60,
    notificationCooldownHours := 24,
    forecastMethod := ForecastMethod.simpleAverage6Months,
    weights := [1, 1, 1, 1, 1, 5], lowStockRule := LowStockRule.belowDaysCover }

/-- The default settings with a low-stock days-cover threshold of 1000,
above the sentinel 999. -/
def settingsT1000 : Settings :=
  { defaultLeadTimeDays := 14, safetyStockDays := 7, reviewPeriodDays := 7,
    lowStockDaysCoverThreshold := 1000, expiryWarningDays := 60,
    notificationCooldownHours := 24,
    forecastMethod := ForecastMethod.simpleAverage6Months,
    weights := [1, 1, 1, 1, 1, 5], lowStockRule := LowStockRule.belowDaysCover }

/-- A sample current date: epoch time 0, September 2026 (0-based month 8). -/
def sampleDate : DateTime :=
  { time := 0, year := 2026, month := 8 }

/-- A planning view with the low-stock flag raised, used to exercise the
alert detector directly. -/
def viewB : ItemPlanningView :=
  { item := sampleItem, lots := [], sales := [], availableStock := 0,
    avgMonthlyDemand := 0, dailyDemand := 0, safetyStock := 0,
    reorderPoint := 0, suggestedOrderQty := 0, freshnessCapApplied := false,
    freshnessCapQty := 0, projectedDaysCoverAfterOrder := 999, daysCover := 0,
    lowStockFlag := true, expiringSoonLots := [] }

/-- An existing low-stock alert for product A that was sent at epoch 0. -/
def alertSentA : InventoryAlert :=
  { id := "old", createdAt := 0, itemId := "A", type := AlertType.lowStock,
    message := "m", status := AlertStatus.sent, lastSentAt := some 0,
    recipientsSnapshot := none }

/-- An existing low-stock alert for product A that was sent but carries no
`lastSentAt` timestamp; its `createdAt` is epoch 0. -/
def alertNoTsA : InventoryAlert :=
  { id := "old2", createdAt := 0, itemId := "A", type := AlertType.lowStock,
    message := "m", status := AlertStatus.sent, lastSentAt := none,
    recipientsSnapshot := none }

theorem ratFloor_intFloor (q : ℚ) : Rat.floor q = ⌊q⌋ :=
  le_antisymm (Int.le_floor.mpr (Rat.le_floor.mp le_rfl)) (Rat.le_floor.mpr (Int.floor_le q))

theorem ratCeil_intCeil (q : ℚ) : ratCeil q = ⌈q⌉ := by
  unfold ratCeil
  rw [ratFloor_intFloor, Int.floor_neg, neg_neg]

theorem calc_suggestedOrderQty (item : Item) (lots : List InventoryLot)
    (sales : List SalesHistory) (settings : Settings) (currentDate : DateTime) :
    (calculateItemPlanning item lots sales settings currentDate).suggestedOrderQty =
      finalSuggestedOf item lots sales settings currentDate := rfl

theorem calc_dailyDemand (item : Item) (lots : List InventoryLot)
    (sales : List SalesHistory) (settings : Settings) (currentDate : DateTime) :
    (calculateItemPlanning item lots sales settings currentDate).dailyDemand =
      dailyDemandOf item sales settings currentDate := rfl

theorem calc_availableStock (item : Item) (lots : List InventoryLot)
    (sales : List SalesHistory) (settings : Settings) (currentDate : DateTime) :
    (calculateItemPlanning item lots sales settings currentDate).availableStock =
      availableStockOf item lots currentDate := rfl

theorem calc_avgMonthlyDemand (item : Item) (lots : List InventoryLot)
    (sales : List SalesHistory) (settings : Settings) (currentDate : DateTime) :
    (calculateItemPlanning item lots sales settings currentDate).avgMonthlyDemand =
      avgMonthlyDemandOf item sales settings currentDate := rfl

theorem calc_daysCover (item : Item) (lots : List InventoryLot)
    (sales : List SalesHistory) (settings : Settings) (currentDate : DateTime) :
    (calculateItemPlanning item lots sales settings currentDate).daysCover =
      daysCoverOf item lots sales settings currentDate := rfl

theorem calc_lowStockFlag (item : Item) (lots : List InventoryLot)
    (sales : List SalesHistory) (settings : Settings) (currentDate : DateTime) :
    (calculateItemPlanning item lots sales settings currentDate).lowStockFlag =
      lowStockFlagOf item lots sales settings currentDate := rfl

theorem calc_expiringSoonLots (item : Item) (lots : List InventoryLot)
    (sales : List SalesHistory) (settings : Settings) (currentDate : DateTime) :
    (calculateItemPlanning item lots sales settings currentDate).expiringSoonLots =
      expiringSoonLotsOf item lots settings currentDate := rfl

theorem rawSuggested_nonneg (item : Item) (lots : List InventoryLot)
    (sales : List SalesHistory) (settings : Settings) (currentDate : DateTime) :
    0 ≤ rawSuggestedOf item lots sales settings currentDate :=
  le_max_left 0 _

theorem capQty_nonneg (item : Item) (lots : List InventoryLot)
    (sales : List SalesHistory) (settings : Settings) (currentDate : DateTime) :
    0 ≤ capQtyOf item lots sales settings currentDate :=
  le_max_left 0 _

theorem cappedSuggested_nonneg (item : Item) (lots : List InventoryLot)
    (sales : List SalesHistory) (settings : Settings) (currentDate : DateTime) :
    0 ≤ cappedSuggestedOf item lots sales settings currentDate :=
  le_min (rawSuggested_nonneg item lots sales settings currentDate)
    (capQty_nonneg item lots sales settings currentDate)

theorem le_moqAdjust (item : Item) (q : ℚ) : q ≤ moqAdjust item q := by
  unfold moqAdjust
  split
  · next h => exact le_of_lt h.2
  · exact le_rfl

theorem moqAdjust_nonneg (item : Item) {q : ℚ} (hq : 0 ≤ q) : 0 ≤ moqAdjust item q :=
  hq.trans (le_moqAdjust item q)

theorem moqAdjust_pos (item : Item) {q : ℚ} (hq : 0 < q) : 0 < moqAdjust item q :=
  lt_of_lt_of_le hq (le_moqAdjust item q)

theorem moq_le_moqAdjust (item : Item) {q : ℚ} (hq : 0 < q) :
    item.moq ≤ moqAdjust item q := by
  unfold moqAdjust
  split
  · exact le_rfl
  · next h =>
    push_neg at h
    exact h hq

theorem moqAdjust_zero (item : Item) : moqAdjust item 0 = 0 := by
  unfold moqAdjust
  simp

theorem le_packAdjust (item : Item) (q : ℚ) : q ≤ packAdjust item q := by
  unfold packAdjust
  split
  · next h =>
    have h1 : q / item.packSize ≤ ((ratCeil (q / item.packSize) : ℤ) : ℚ) := by
      rw [ratCeil_intCeil]
      exact Int.le_ceil _
    exact (div_le_iff₀ h.2).mp h1
  · exact le_rfl

theorem packAdjust_nonneg (item : Item) {q : ℚ} (hq : 0 ≤ q) : 0 ≤ packAdjust item q :=
  hq.trans (le_packAdjust item q)

theorem packAdjust_zero (item : Item) : packAdjust item 0 = 0 := by
  unfold packAdjust
  simp

theorem packAdjust_mul (item : Item) {q : ℚ} (h0 : 0 < q) (hp : 0 < item.packSize) :
    ∃ k : ℤ, packAdjust item q = (k : ℚ) * item.packSize := by
  unfold packAdjust
  rw [if_pos ⟨h0, hp⟩]
  exact ⟨ratCeil (q / item.packSize), rfl⟩

/-- C5: for every product, lots, sales history, settings and now, the
`suggestedOrderQty` field of the view returned by `calculateItemPlanning`
is greater than or equal to 0. -/
theorem suggestedOrderQty_nonneg (item : Item) (lots : List InventoryLot)
    (sales : List SalesHistory) (settings : Settings) (currentDate : DateTime) :
    0 ≤ (calculateItemPlanning item lots sales settings currentDate).suggestedOrderQty := by
  rw [calc_suggestedOrderQty]
  unfold finalSuggestedOf
  exact packAdjust_nonneg item
    (moqAdjust_nonneg item (cappedSuggested_nonneg item lots sales settings currentDate))

/-- C1: whenever the final `suggestedOrderQty` computed by
`calculateItemPlanning` is positive, it is at least `product.moq`, and,
whenever additionally `product.packSize` is positive, it is an integer
multiple of `product.packSize`. -/
theorem calculateItemPlanning_moq_pack (item : Item) (lots : List InventoryLot)
    (sales : List SalesHistory) (settings : Settings) (currentDate : DateTime)
    (hpos : 0 < (calculateItemPlanning item lots sales settings currentDate).suggestedOrderQty) :
    item.moq ≤ (calculateItemPlanning item lots sales settings currentDate).suggestedOrderQty ∧
      (0 < item.packSize →
        ∃ k : ℤ,
          (calculateItemPlanning item lots sales settings currentDate).suggestedOrderQty =
            (k : ℚ) * item.packSize) := by
  rw [calc_suggestedOrderQty] at hpos ⊢
  unfold finalSuggestedOf at hpos ⊢
  have hq0 : 0 ≤ cappedSuggestedOf item lots sales settings currentDate :=
    cappedSuggested_nonneg item lots sales settings currentDate
  rcases hq0.lt_or_eq with h0 | h0
  · have hm : 0 < moqAdjust item (cappedSuggestedOf item lots sales settings currentDate) :=
      moqAdjust_pos item h0
    exact ⟨(moq_le_moqAdjust item h0).trans (le_packAdjust item _),
      fun hp => packAdjust_mul item hm hp⟩
  · exfalso
    rw [← h0, moqAdjust_zero, packAdjust_zero] at hpos
    exact lt_irrefl 0 hpos

unseal Rat.mul Rat.inv Rat.add Rat.sub Rat.ofScientific in
theorem calculateItemPlanning_moq_pack_witness :
    0 < (calculateItemPlanning sampleItem [] [sale304] sampleSettings sampleDate).suggestedOrderQty ∧
      (sampleItem.moq ≤
          (calculateItemPlanning sampleItem [] [sale304] sampleSettings sampleDate).suggestedOrderQty ∧
        (0 < sampleItem.packSize →
          ∃ k : ℤ,
            (calculateItemPlanning sampleItem [] [sale304] sampleSettings sampleDate).suggestedOrderQty =
              (k : ℚ) * sampleItem.packSize)) :=
  ⟨by decide,
    calculateItemPlanning_moq_pack sampleItem [] [sale304] sampleSettings sampleDate (by decide)⟩

/-- C6 (amended): `daysCover` equals the sentinel 999 exactly when the
daily demand is nonpositive or the available stock coincidentally equals
999 times the daily demand; the original claim (iff `dailyDemand == 0`)
fails in the coincidental case. -/
theorem daysCover_sentinel_iff (item : Item) (lots : List InventoryLot)
    (sales : List SalesHistory) (settings : Settings) (currentDate : DateTime) :
    (calculateItemPlanning item lots sales settings currentDate).daysCover = 999 ↔
      ((calculateItemPlanning item lots sales settings currentDate).dailyDemand ≤ 0 ∨
        (calculateItemPlanning item lots sales settings currentDate).availableStock =
          999 * (calculateItemPlanning item lots sales settings currentDate).dailyDemand) := by
  rw [calc_daysCover, calc_dailyDemand, calc_availableStock]
  unfold daysCoverOf
  split
  · next h =>
    rw [div_eq_iff (ne_of_gt h)]
    exact (or_iff_right (not_le.mpr h)).symm
  · next h =>
    simp [not_lt.mp h]

unseal Rat.mul Rat.inv Rat.add Rat.sub Rat.ofScientific in
theorem daysCover_sentinel_cex :
    (calculateItemPlanning sampleItem [lot999] [sale304] sampleSettings sampleDate).daysCover =
        999 ∧
      (calculateItemPlanning sampleItem [lot999] [sale304] sampleSettings sampleDate).dailyDemand ≠
        0 := by
  decide

/-- C10: when the computed daily demand is 0 and the available stock is
nonnegative, the final suggested order quantity is 0 — the MOQ raise and
the pack rounding are never applied. -/
theorem zero_demand_no_order (item : Item) (lots : List InventoryLot)
    (sales : List SalesHistory) (settings : Settings) (currentDate : DateTime)
    (hdd : (calculateItemPlanning item lots sales settings currentDate).dailyDemand = 0)
    (hav : 0 ≤ (calculateItemPlanning item lots sales settings currentDate).availableStock) :
    (calculateItemPlanning item lots sales settings currentDate).suggestedOrderQty = 0 := by
  rw [calc_dailyDemand] at hdd
  rw [calc_availableStock] at hav
  rw [calc_suggestedOrderQty]
  unfold finalSuggestedOf
  have hraw : rawSuggestedOf item lots sales settings currentDate = 0 := by
    unfold rawSuggestedOf reorderPointOf safetyStockOf
    rw [hdd]
    simp only [zero_mul, add_zero, zero_add, zero_sub]
    exact max_eq_left (neg_nonpos.mpr hav)
  have hcap : capQtyOf item lots sales settings currentDate = 0 := by
    unfold capQtyOf maxFreshStockOf
    rw [hdd]
    simp only [zero_mul, zero_sub]
    exact max_eq_left (neg_nonpos.mpr hav)
  have hcapped : cappedSuggestedOf item lots sales settings currentDate = 0 := by
    unfold cappedSuggestedOf
    rw [hraw, hcap, min_self]
  rw [hcapped, moqAdjust_zero, packAdjust_zero]

unseal Rat.mul Rat.inv Rat.add Rat.sub Rat.ofScientific in
theorem zero_demand_no_order_witness :
    (calculateItemPlanning sampleItem [] [] sampleSettings sampleDate).dailyDemand = 0 ∧
      0 ≤ (calculateItemPlanning sampleItem [] [] sampleSettings sampleDate).availableStock ∧
      (calculateItemPlanning sampleItem [] [] sampleSettings sampleDate).suggestedOrderQty = 0 :=
  ⟨by decide, by decide,
    zero_demand_no_order sampleItem [] [] sampleSettings sampleDate (by decide) (by decide)⟩

theorem forecastFold_fst_empty (weights : List ℚ) (l : List (ℕ × (ℤ × ℤ))) :
    ∀ acc : ℚ × ℚ, (l.foldl (forecastStep [] weights) acc).1 = acc.1 := by
  induction l with
  | nil => intro acc; rfl
  | cons p t ih =>
    intro acc
    rw [List.foldl_cons, ih]
    simp [forecastStep, monthSaleOf]

theorem avgMonthlyDemand_no_sales (item : Item) (sales : List SalesHistory)
    (settings : Settings) (currentDate : DateTime)
    (hs : ∀ s ∈ sales, s.itemId ≠ item.id) :
    avgMonthlyDemandOf item sales settings currentDate = 0 := by
  have hempty : itemSalesOf item sales = [] := by
    unfold itemSalesOf
    rw [List.filter_eq_nil_iff]
    intro s hsmem
    simp [hs s hsmem]
  simp only [avgMonthlyDemandOf, hempty]
  cases hfm : settings.forecastMethod
  · simp
  · have h1 := forecastFold_fst_empty settings.weights (last6MonthsOf currentDate).enum (0, 0)
    rw [h1]
    split <;> simp

/-- C7 (amended): for a product with no sales records, the view has
`avgMonthlyDemand = 0`, `dailyDemand = 0`, `daysCover = 999`, and under the
`belowDaysCover` rule the low-stock flag is false for every threshold that
does not exceed the sentinel 999 (a threshold above 999 raises the flag,
so the original "regardless of the threshold" fails). -/
theorem no_sales_defaults (item : Item) (lots : List InventoryLot)
    (sales : List SalesHistory) (settings : Settings) (currentDate : DateTime)
    (hs : ∀ s ∈ sales, s.itemId ≠ item.id) :
    (calculateItemPlanning item lots sales settings currentDate).avgMonthlyDemand = 0 ∧
      (calculateItemPlanning item lots sales settings currentDate).dailyDemand = 0 ∧
      (calculateItemPlanning item lots sales settings currentDate).daysCover = 999 ∧
      (settings.lowStockRule = LowStockRule.belowDaysCover →
        settings.lowStockDaysCoverThreshold ≤ 999 →
        (calculateItemPlanning item lots sales settings currentDate).lowStockFlag = false) := by
  have havg := avgMonthlyDemand_no_sales item sales settings currentDate hs
  have hdd : dailyDemandOf item sales settings currentDate = 0 := by
    unfold dailyDemandOf
    rw [havg]
    exact zero_div _
  have hdc : daysCoverOf item lots sales settings currentDate = 999 := by
    unfold daysCoverOf
    rw [hdd]
    simp
  refine ⟨by rw [calc_avgMonthlyDemand]; exact havg, by rw [calc_dailyDemand]; exact hdd,
    by rw [calc_daysCover]; exact hdc, ?_⟩
  intro hrule ht
  rw [calc_lowStockFlag]
  unfold lowStockFlagOf
  rw [hrule]
  show decide
    (daysCoverOf item lots sales settings currentDate < settings.lowStockDaysCoverThreshold) =
    false
  rw [hdc]
  exact decide_eq_false (not_lt.mpr ht)

unseal Rat.mul Rat.inv Rat.add Rat.sub Rat.ofScientific in
theorem no_sales_cex :
    (calculateItemPlanning sampleItem [] [] settingsT1000 sampleDate).avgMonthlyDemand = 0 ∧
      (calculateItemPlanning sampleItem [] [] settingsT1000 sampleDate).dailyDemand = 0 ∧
      settingsT1000.lowStockRule = LowStockRule.belowDaysCover ∧
      (calculateItemPlanning sampleItem [] [] settingsT1000 sampleDate).lowStockFlag = true := by
  decide

unseal Rat.mul Rat.inv Rat.add Rat.sub Rat.ofScientific in
theorem no_sales_defaults_witness :
    (∀ s ∈ ([] : List SalesHistory), s.itemId ≠ sampleItem.id) ∧
      ((calculateItemPlanning sampleItem [] [] sampleSettings sampleDate).avgMonthlyDemand = 0 ∧
        (calculateItemPlanning sampleItem [] [] sampleSettings sampleDate).dailyDemand = 0 ∧
        (calculateItemPlanning sampleItem [] [] sampleSettings sampleDate).daysCover = 999 ∧
        (sampleSettings.lowStockRule = LowStockRule.belowDaysCover →
          sampleSettings.lowStockDaysCoverThreshold ≤ 999 →
          (calculateItemPlanning sampleItem [] [] sampleSettings sampleDate).lowStockFlag =
            false)) :=
  ⟨by decide, no_sales_defaults sampleItem [] [] sampleSettings sampleDate (by decide)⟩

/-- C9: every lot in `expiringSoonLots` has status available and an expiry
date strictly after now, is a member of the non-expired lots, and the
`availableStock` of the same view is exactly the sum of `quantityRemaining`
over those non-expired lots. -/
theorem expiringSoonLots_sound (item : Item) (lots : List InventoryLot)
    (sales : List SalesHistory) (settings : Settings) (currentDate : DateTime) :
    (∀ l ∈ (calculateItemPlanning item lots sales settings currentDate).expiringSoonLots,
      l.status = LotStatus.available ∧
        (∃ e, l.expiryDate = some e ∧ currentDate.time < e) ∧
        l ∈ nonExpiredLotsOf item lots currentDate) ∧
      (calculateItemPlanning item lots sales settings currentDate).availableStock =
        (nonExpiredLotsOf item lots currentDate).foldl
          (fun sum lot => sum + lot.quantityRemaining) 0 := by
  refine ⟨?_, rfl⟩
  intro l hl
  rw [calc_expiringSoonLots] at hl
  unfold expiringSoonLotsOf at hl
  rw [List.mem_filter] at hl
  obtain ⟨hact, hcond⟩ := hl
  have hstat : l.status = LotStatus.available := by
    unfold activeLotsOf at hact
    rw [List.mem_filter] at hact
    have h2 := hact.2
    simp only [Bool.and_eq_true, decide_eq_true_eq] at h2
    exact h2.2
  rcases he : l.expiryDate with _ | e
  · rw [he] at hcond
    simp at hcond
  · rw [he] at hcond
    simp only [Bool.and_eq_true, decide_eq_true_eq] at hcond
    have hpos : currentDate.time < e := by
      by_contra hnot
      push_neg at hnot
      have hle : (e - currentDate.time) / (1000 * 3600 * 24) ≤ 0 :=
        div_nonpos_iff.mpr (Or.inr ⟨sub_nonpos.mpr hnot, by norm_num⟩)
      linarith [hcond.2]
    refine ⟨hstat, ⟨e, rfl, hpos⟩, ?_⟩
    have hactm : l ∈ activeLotsOf item lots := hact
    unfold nonExpiredLotsOf
    rw [List.mem_filter]
    refine ⟨hactm, ?_⟩
    rw [he]
    exact decide_eq_true hpos

unseal Rat.mul Rat.inv Rat.add Rat.sub Rat.ofScientific in
theorem expiringSoonLots_sound_witness :
    lotSoon ∈
        (calculateItemPlanning sampleItem [lotSoon] [] sampleSettings
            sampleDate).expiringSoonLots ∧
      (lotSoon.status = LotStatus.available ∧
        (∃ e, lotSoon.expiryDate = some e ∧ sampleDate.time < e) ∧
        lotSoon ∈ nonExpiredLotsOf sampleItem [lotSoon] sampleDate) :=
  ⟨by decide,
    (expiringSoonLots_sound sampleItem [lotSoon] [] sampleSettings sampleDate).1 lotSoon
      (by decide)⟩

theorem foldl_add_nonneg {α : Type} (f : α → ℚ) (l : List α) (h : ∀ x ∈ l, 0 ≤ f x) :
    ∀ acc : ℚ, 0 ≤ acc → 0 ≤ l.foldl (fun s x => s + f x) acc := by
  induction l with
  | nil => intro acc hacc; exact hacc
  | cons x t ih =>
    intro acc hacc
    rw [List.foldl_cons]
    exact ih (fun y hy => h y (List.mem_cons_of_mem x hy)) _
      (add_nonneg hacc (h x (List.mem_cons_self x t)))

theorem getD_nonneg (l : List ℚ) (h : ∀ w ∈ l, 0 ≤ w) (i : ℕ) : 0 ≤ l.getD i 0 := by
  by_cases hi : i < l.length
  · rw [List.getD_eq_getElem l 0 hi]
    exact h _ (List.getElem_mem hi)
  · rw [List.getD_eq_default l 0 (le_of_not_lt hi)]

theorem monthSale_nonneg (itemSales : List SalesHistory)
    (hs : ∀ s ∈ itemSales, 0 ≤ s.quantitySold) (m : ℤ × ℤ) :
    0 ≤ monthSaleOf itemSales m := by
  unfold monthSaleOf
  rcases hf : itemSales.find? (fun s => decide (s.month = m)) with _ | s
  · rw [hf]
  · rw [hf]
    exact hs s (List.mem_of_find?_eq_some hf)

theorem forecastFold_fst_nonneg (itemSales : List SalesHistory) (weights : List ℚ)
    (hs : ∀ s ∈ itemSales, 0 ≤ s.quantitySold) (hw : ∀ w ∈ weights, 0 ≤ w)
    (l : List (ℕ × (ℤ × ℤ))) :
    ∀ acc : ℚ × ℚ, 0 ≤ acc.1 → 0 ≤ (l.foldl (forecastStep itemSales weights) acc).1 := by
  induction l with
  | nil => intro acc h; exact h
  | cons p t ih =>
    intro acc h
    rw [List.foldl_cons]
    apply ih
    exact add_nonneg h
      (mul_nonneg (monthSale_nonneg itemSales hs p.2) (getD_nonneg weights hw p.1))

theorem dailyDemand_nonneg (item : Item) (sales : List SalesHistory) (settings : Settings)
    (currentDate : DateTime) (hs : ∀ s ∈ sales, 0 ≤ s.quantitySold)
    (hw : ∀ w ∈ settings.weights, 0 ≤ w) :
    0 ≤ dailyDemandOf item sales settings currentDate := by
  unfold dailyDemandOf
  apply div_nonneg _ (by norm_num)
  have hs2 : ∀ s ∈ itemSalesOf item sales, 0 ≤ s.quantitySold := by
    intro s hmem
    exact hs s (List.mem_of_mem_filter hmem)
  simp only [avgMonthlyDemandOf]
  split
  · split
    · exact div_nonneg
        (foldl_add_nonneg (fun s => s.quantitySold) (itemSalesOf item sales) hs2 0 le_rfl)
        (Nat.cast_nonneg _)
    · exact le_rfl
  · split
    · next hpos =>
      exact div_nonneg
        (forecastFold_fst_nonneg (itemSalesOf item sales) settings.weights hs2 hw _ (0, 0)
          le_rfl)
        (le_of_lt hpos)
    · exact le_rfl

theorem moqAdjust_mono (item : Item) {q1 q2 : ℚ} (h : q1 ≤ q2) :
    moqAdjust item q1 ≤ moqAdjust item q2 := by
  unfold moqAdjust
  by_cases h1 : 0 < q1 ∧ q1 < item.moq
  · rw [if_pos h1]
    by_cases h2 : 0 < q2 ∧ q2 < item.moq
    · rw [if_pos h2]
    · rw [if_neg h2]
      push_neg at h2
      exact h2 (lt_of_lt_of_le h1.1 h)
  · rw [if_neg h1]
    by_cases h2 : 0 < q2 ∧ q2 < item.moq
    · rw [if_pos h2]
      exact le_of_lt (lt_of_le_of_lt h h2.2)
    · rw [if_neg h2]
      exact h

theorem packAdjust_mono (item : Item) {q1 q2 : ℚ} (h0 : 0 ≤ q1) (h : q1 ≤ q2) :
    packAdjust item q1 ≤ packAdjust item q2 := by
  by_cases hp : 0 < item.packSize
  · rcases h0.lt_or_eq with h1 | h1
    · have h2 : 0 < q2 := lt_of_lt_of_le h1 h
      unfold packAdjust
      rw [if_pos ⟨h1, hp⟩, if_pos ⟨h2, hp⟩]
      have hc : ratCeil (q1 / item.packSize) ≤ ratCeil (q2 / item.packSize) := by
        rw [ratCeil_intCeil, ratCeil_intCeil]
        exact Int.ceil_le_ceil (by gcongr)
      have hc2 : ((ratCeil (q1 / item.packSize) : ℤ) : ℚ) ≤
          ((ratCeil (q2 / item.packSize) : ℤ) : ℚ) := by
        exact_mod_cast hc
      exact mul_le_mul_of_nonneg_right hc2 (le_of_lt hp)
    · rw [← h1, packAdjust_zero]
      exact packAdjust_nonneg item (h0.trans h)
  · unfold packAdjust
    rw [if_neg (fun hh => hp hh.2), if_neg (fun hh => hp hh.2)]
    exact h

theorem calc_suggested_shelf_update (item : Item) (lots : List InventoryLot)
    (sales : List SalesHistory) (settings : Settings) (currentDate : DateTime)
    (x : Option ℚ) :
    (calculateItemPlanning { item with shelfLifeDays := x } lots sales settings
        currentDate).suggestedOrderQty =
      packAdjust item (moqAdjust item
        (min (rawSuggestedOf item lots sales settings currentDate)
          (max 0 (dailyDemandOf item sales settings currentDate * x.getD 365 * (0.8 : ℚ) -
            availableStockOf item lots currentDate)))) := rfl

/-- C8: with all sales quantities and weights nonnegative (so the daily
demand is nonnegative), a nonnegative MOQ and pack size, increasing a
products set `shelfLifeDays` (everything else fixed) never decreases the
final `suggestedOrderQty`. -/
theorem freshness_cap_monotone (item : Item) (lots : List InventoryLot)
    (sales : List SalesHistory) (settings : Settings) (currentDate : DateTime)
    (sl1 sl2 : ℚ) (hs : ∀ s ∈ sales, 0 ≤ s.quantitySold)
    (hw : ∀ w ∈ settings.weights, 0 ≤ w) (_hmoq : 0 ≤ item.moq)
    (_hpack : 0 ≤ item.packSize) (hsl : sl1 ≤ sl2) :
    (calculateItemPlanning { item with shelfLifeDays := some sl1 } lots sales settings
        currentDate).suggestedOrderQty ≤
      (calculateItemPlanning { item with shelfLifeDays := some sl2 } lots sales settings
        currentDate).suggestedOrderQty := by
  rw [calc_suggested_shelf_update, calc_suggested_shelf_update]
  have hdd := dailyDemand_nonneg item sales settings currentDate hs hw
  have hcap :
      max 0 (dailyDemandOf item sales settings currentDate * (some sl1).getD 365 * (0.8 : ℚ) -
          availableStockOf item lots currentDate) ≤
        max 0 (dailyDemandOf item sales settings currentDate * (some sl2).getD 365 * (0.8 : ℚ) -
          availableStockOf item lots currentDate) := by
    apply max_le_max le_rfl
    have h1 : dailyDemandOf item sales settings currentDate * sl1 ≤
        dailyDemandOf item sales settings currentDate * sl2 :=
      mul_le_mul_of_nonneg_left hsl hdd
    have h2 : dailyDemandOf item sales settings currentDate * sl1 * (0.8 : ℚ) ≤
        dailyDemandOf item sales settings currentDate * sl2 * (0.8 : ℚ) :=
      mul_le_mul_of_nonneg_right h1 (by norm_num)
    simp only [Option.getD_some]
    linarith
  have hmin :
      min (rawSuggestedOf item lots sales settings currentDate)
          (max 0 (dailyDemandOf item sales settings currentDate * (some sl1).getD 365 *
            (0.8 : ℚ) - availableStockOf item lots currentDate)) ≤
        min (rawSuggestedOf item lots sales settings currentDate)
          (max 0 (dailyDemandOf item sales settings currentDate * (some sl2).getD 365 *
            (0.8 : ℚ) - availableStockOf item lots currentDate)) :=
    min_le_min le_rfl hcap
  have h1 :
      0 ≤ min (rawSuggestedOf item lots sales settings currentDate)
        (max 0 (dailyDemandOf item sales settings currentDate * (some sl1).getD 365 *
          (0.8 : ℚ) - availableStockOf item lots currentDate)) :=
    le_min (rawSuggested_nonneg item lots sales settings currentDate) (le_max_left 0 _)
  exact packAdjust_mono item (moqAdjust_nonneg item h1) (moqAdjust_mono item hmin)

unseal Rat.mul Rat.inv Rat.add Rat.sub Rat.ofScientific in
theorem freshness_cap_monotone_witness :
    (∀ s ∈ [sale304], 0 ≤ s.quantitySold) ∧ (∀ w ∈ sampleSettings.weights, 0 ≤ w) ∧
      0 ≤ sampleItem.moq ∧ 0 ≤ sampleItem.packSize ∧ (10 : ℚ) ≤ 20 ∧
      (calculateItemPlanning { sampleItem with shelfLifeDays := some 10 } [] [sale304]
          sampleSettings sampleDate).suggestedOrderQty ≤
        (calculateItemPlanning { sampleItem with shelfLifeDays := some 20 } [] [sale304]
          sampleSettings sampleDate).suggestedOrderQty :=
  ⟨by decide, by decide, by decide, by decide, by decide,
    freshness_cap_monotone sampleItem [] [sale304] sampleSettings sampleDate 10 20
      (by decide) (by decide) (by decide) (by decide) (by decide)⟩

theorem isRecentAlertPred_iff (pid : String) (t : AlertType) (now ch : ℚ)
    (a : InventoryAlert) :
    isRecentAlertPred pid t now ch a = true ↔
      a.itemId = pid ∧ a.type = t ∧
        (a.status = AlertStatus.pending ∨
          ∃ ts, a.lastSentAt = some ts ∧ (now - ts) / (1000 * 3600) < ch) := by
  unfold isRecentAlertPred
  rcases hts : a.lastSentAt with _ | ts
  · simp [hts]
    exact and_assoc
  · simp [hts]
    exact and_assoc

theorem isRecentAlertPred_mkLow (view : ItemPlanningView) (now ch now2 : ℚ) :
    isRecentAlertPred view.item.id AlertType.lowStock now ch (mkLowStockAlert view now2) =
      true := by
  simp [isRecentAlertPred, mkLowStockAlert]

theorem isRecentAlertPred_mkExp (view : ItemPlanningView) (now ch now2 : ℚ) :
    isRecentAlertPred view.item.id AlertType.expiry now ch (mkExpiryAlert view now2) =
      true := by
  simp [isRecentAlertPred, mkExpiryAlert]

theorem mem_alertsForView {view : ItemPlanningView} {ea : List InventoryAlert}
    {settings : Settings} {now : ℚ} {b : InventoryAlert} :
    b ∈ alertsForView view ea settings now ↔
      (view.lowStockFlag = true ∧
        ea.find? (isRecentAlertPred view.item.id AlertType.lowStock now
          settings.notificationCooldownHours) = none ∧
        b = mkLowStockAlert view now) ∨
      (0 < view.expiringSoonLots.length ∧
        ea.find? (isRecentAlertPred view.item.id AlertType.expiry now
          settings.notificationCooldownHours) = none ∧
        b = mkExpiryAlert view now) := by
  unfold alertsForView
  by_cases hlf : view.lowStockFlag = true
  · by_cases hsl : 0 < view.expiringSoonLots.length
    · rcases hf1 : ea.find? (isRecentAlertPred view.item.id AlertType.lowStock now
          settings.notificationCooldownHours) with _ | a1 <;>
        rcases hf2 : ea.find? (isRecentAlertPred view.item.id AlertType.expiry now
          settings.notificationCooldownHours) with _ | a2 <;>
        simp [hlf, hsl, hf1, hf2]
    · rcases hf1 : ea.find? (isRecentAlertPred view.item.id AlertType.lowStock now
          settings.notificationCooldownHours) with _ | a1 <;>
        simp [hlf, hsl, hf1]
  · by_cases hsl : 0 < view.expiringSoonLots.length
    · rcases hf2 : ea.find? (isRecentAlertPred view.item.id AlertType.expiry now
          settings.notificationCooldownHours) with _ | a2 <;>
        simp [hlf, hsl, hf2]
    · simp [hlf, hsl]

theorem mem_detectAlerts {views : List ItemPlanningView} {ea : List InventoryAlert}
    {settings : Settings} {now : ℚ} {b : InventoryAlert} :
    b ∈ detectAlerts views ea settings now ↔
      ∃ v ∈ views, b ∈ alertsForView v ea settings now := by
  unfold detectAlerts
  exact List.mem_flatMap

theorem detect_emit_of_find_none {views : List ItemPlanningView} {ea : List InventoryAlert}
    {settings : Settings} {now : ℚ} {v : ItemPlanningView} {t : AlertType}
    (hv : v ∈ views) (hq : qualifiesFor v t)
    (hfind : ea.find?
      (isRecentAlertPred v.item.id t now settings.notificationCooldownHours) = none) :
    ∃ b ∈ detectAlerts views ea settings now,
      b.itemId = v.item.id ∧ b.type = t ∧ b.status = AlertStatus.pending := by
  cases t
  case lowStock =>
    refine ⟨mkLowStockAlert v now, ?_, rfl, rfl, rfl⟩
    rw [mem_detectAlerts]
    exact ⟨v, hv, mem_alertsForView.mpr (Or.inl ⟨hq, hfind, rfl⟩)⟩
  case expiry =>
    refine ⟨mkExpiryAlert v now, ?_, rfl, rfl, rfl⟩
    rw [mem_detectAlerts]
    exact ⟨v, hv, mem_alertsForView.mpr (Or.inr ⟨hq, hfind, rfl⟩)⟩

theorem detect_emitted_imp {views : List ItemPlanningView} {ea : List InventoryAlert}
    {settings : Settings} {now : ℚ} {b : InventoryAlert}
    (hb : b ∈ detectAlerts views ea settings now) :
    ea.find? (isRecentAlertPred b.itemId b.type now settings.notificationCooldownHours) =
        none ∧
      b.status = AlertStatus.pending := by
  rw [mem_detectAlerts] at hb
  obtain ⟨v, hv, hbv⟩ := hb
  rw [mem_alertsForView] at hbv
  rcases hbv with ⟨hlf, hfind, rfl⟩ | ⟨hsl, hfind, rfl⟩
  · exact ⟨hfind, rfl⟩
  · exact ⟨hfind, rfl⟩

/-- C2 (amended): re-running `detectAlerts` at the same `now` on the same
views and settings, with a second existing-alert list that contains all of
the original existing alerts and all of the first output, yields the empty
list; the original claim additionally allowed the second call to run at
any later time, which fails once a cooldown window elapses between the two
calls. -/
theorem detectAlerts_idempotent_same_now (views : List ItemPlanningView)
    (ea ea2 : List InventoryAlert) (settings : Settings) (now : ℚ)
    (h1 : ∀ a ∈ ea, a ∈ ea2)
    (h2 : ∀ a ∈ detectAlerts views ea settings now, a ∈ ea2) :
    detectAlerts views ea2 settings now = [] := by
  rw [List.eq_nil_iff_forall_not_mem]
  intro b hb
  rw [mem_detectAlerts] at hb
  obtain ⟨v, hv, hbv⟩ := hb
  rw [mem_alertsForView] at hbv
  rcases hbv with ⟨hlf, hfind, hbeq⟩ | ⟨hsl, hfind, hbeq⟩
  · rw [List.find?_eq_none] at hfind
    rcases hf : ea.find? (isRecentAlertPred v.item.id AlertType.lowStock now
        settings.notificationCooldownHours) with _ | a
    · have hmem : mkLowStockAlert v now ∈ detectAlerts views ea settings now := by
        rw [mem_detectAlerts]
        exact ⟨v, hv, mem_alertsForView.mpr (Or.inl ⟨hlf, hf, rfl⟩)⟩
      exact hfind _ (h2 _ hmem)
        (isRecentAlertPred_mkLow v now settings.notificationCooldownHours now)
    · have ha : a ∈ ea := List.mem_of_find?_eq_some hf
      have hpa := List.find?_some hf
      exact hfind a (h1 a ha) hpa
  · rw [List.find?_eq_none] at hfind
    rcases hf : ea.find? (isRecentAlertPred v.item.id AlertType.expiry now
        settings.notificationCooldownHours) with _ | a
    · have hmem : mkExpiryAlert v now ∈ detectAlerts views ea settings now := by
        rw [mem_detectAlerts]
        exact ⟨v, hv, mem_alertsForView.mpr (Or.inr ⟨hsl, hf, rfl⟩)⟩
      exact hfind _ (h2 _ hmem)
        (isRecentAlertPred_mkExp v now settings.notificationCooldownHours now)
    · have ha : a ∈ ea := List.mem_of_find?_eq_some hf
      have hpa := List.find?_some hf
      exact hfind a (h1 a ha) hpa

unseal Rat.mul Rat.inv Rat.add Rat.sub Rat.ofScientific in
theorem detectAlerts_idempotent_same_now_witness :
    (∀ a ∈ ([] : List InventoryAlert), a ∈ detectAlerts [viewB] [] sampleSettings 0) ∧
      (∀ a ∈ detectAlerts [viewB] [] sampleSettings 0,
        a ∈ detectAlerts [viewB] [] sampleSettings 0) ∧
      detectAlerts [viewB] (detectAlerts [viewB] [] sampleSettings 0) sampleSettings 0 = [] :=
  ⟨by decide, by decide,
    detectAlerts_idempotent_same_now [viewB] [] (detectAlerts [viewB] [] sampleSettings 0)
      sampleSettings 0 (by decide) (by decide)⟩

unseal Rat.mul Rat.inv Rat.add Rat.sub Rat.ofScientific in
theorem detectAlerts_idempotent_cex :
    (3600000 : ℚ) ≤ 360000000 ∧
      (∀ a ∈ [alertSentA],
        a ∈ alertSentA :: detectAlerts [viewB] [alertSentA] sampleSettings 3600000) ∧
      (∀ a ∈ detectAlerts [viewB] [alertSentA] sampleSettings 3600000,
        a ∈ alertSentA :: detectAlerts [viewB] [alertSentA] sampleSettings 3600000) ∧
      detectAlerts [viewB]
          (alertSentA :: detectAlerts [viewB] [alertSentA] sampleSettings 3600000)
          sampleSettings 360000000 ≠ [] := by
  decide

/-- C3: an existing alert of the same product and type with status sent
and a `lastSentAt` strictly inside the cooldown window suppresses any new
alert of that type for that product, and when every matching existing
alert is sent with its cooldown elapsed (none pending), a new alert of
that type is emitted for that product. -/
theorem detectAlerts_cooldown (views : List ItemPlanningView) (ea : List InventoryAlert)
    (settings : Settings) (now : ℚ) (v : ItemPlanningView) (t : AlertType)
    (hv : v ∈ views) (hq : qualifiesFor v t) :
    ((∃ a ∈ ea, a.itemId = v.item.id ∧ a.type = t ∧ a.status = AlertStatus.sent ∧
        ∃ ts, a.lastSentAt = some ts ∧
          (now - ts) / (1000 * 3600) < settings.notificationCooldownHours) →
      ∀ b ∈ detectAlerts views ea settings now, ¬(b.itemId = v.item.id ∧ b.type = t)) ∧
    ((∀ a ∈ ea, a.itemId = v.item.id → a.type = t → a.status = AlertStatus.sent ∧
        ∃ ts, a.lastSentAt = some ts ∧
          settings.notificationCooldownHours ≤ (now - ts) / (1000 * 3600)) →
      ∃ b ∈ detectAlerts views ea settings now, b.itemId = v.item.id ∧ b.type = t) := by
  constructor
  · rintro ⟨a, ha, haid, hat, _hasent, ts, hts, hlt⟩ b hb ⟨hbid, hbt⟩
    have hpa : isRecentAlertPred b.itemId b.type now settings.notificationCooldownHours a =
        true := by
      rw [isRecentAlertPred_iff]
      exact ⟨haid.trans hbid.symm, hat.trans hbt.symm, Or.inr ⟨ts, hts, hlt⟩⟩
    have hres := detect_emitted_imp hb
    exact (List.find?_eq_none.mp hres.1) a ha hpa
  · intro hall
    have hfind : ea.find?
        (isRecentAlertPred v.item.id t now settings.notificationCooldownHours) = none := by
      rw [List.find?_eq_none]
      intro a ha hpa
      rw [isRecentAlertPred_iff] at hpa
      obtain ⟨haid, hat, hcase⟩ := hpa
      obtain ⟨hsent, ts, hts, hge⟩ := hall a ha haid hat
      rcases hcase with hpend | ⟨ts2, hts2, hlt⟩
      · exact absurd (hpend.symm.trans hsent) (by decide)
      · have hts3 : ts = ts2 := Option.some.inj (hts.symm.trans hts2)
        rw [← hts3] at hlt
        linarith
    obtain ⟨b, hbmem, hbid, hbt, _⟩ := detect_emit_of_find_none hv hq hfind
    exact ⟨b, hbmem, hbid, hbt⟩

unseal Rat.mul Rat.inv Rat.add Rat.sub Rat.ofScientific in
theorem detectAlerts_cooldown_witness :
    ((∃ a ∈ [alertSentA], a.itemId = viewB.item.id ∧ a.type = AlertType.lowStock ∧
        a.status = AlertStatus.sent ∧
        ∃ ts, a.lastSentAt = some ts ∧
          ((360000000 : ℚ) - ts) / (1000 * 3600) < sampleSettings.notificationCooldownHours) →
      ∀ b ∈ detectAlerts [viewB] [alertSentA] sampleSettings 360000000,
        ¬(b.itemId = viewB.item.id ∧ b.type = AlertType.lowStock)) ∧
    ((∀ a ∈ [alertSentA], a.itemId = viewB.item.id → a.type = AlertType.lowStock →
        a.status = AlertStatus.sent ∧
        ∃ ts, a.lastSentAt = some ts ∧
          sampleSettings.notificationCooldownHours ≤
            ((360000000 : ℚ) - ts) / (1000 * 3600)) →
      ∃ b ∈ detectAlerts [viewB] [alertSentA] sampleSettings 360000000,
        b.itemId = viewB.item.id ∧ b.type = AlertType.lowStock) :=
  detectAlerts_cooldown [viewB] [alertSentA] sampleSettings 360000000 viewB
    AlertType.lowStock (by decide) rfl

unseal Rat.mul Rat.inv Rat.add Rat.sub Rat.ofScientific in
theorem detectAlerts_no_createdAt_fallback_cex :
    alertNoTsA.status ≠ AlertStatus.pending ∧ alertNoTsA.lastSentAt = none ∧
      alertNoTsA.itemId = viewB.item.id ∧ alertNoTsA.type = AlertType.lowStock ∧
      ((0 : ℚ) - alertNoTsA.createdAt) / (1000 * 3600) <
        sampleSettings.notificationCooldownHours ∧
      viewB.lowStockFlag = true ∧
      (detectAlerts [viewB] [alertNoTsA] sampleSettings 0).map
          (fun b => (b.itemId, b.type)) = [("A", AlertType.lowStock)] := by
  decide

/-- C4 (amended): for a qualifying view, a new alert of the given type is
emitted for the product exactly when no existing alert of that product and
type is pending or has a `lastSentAt` within the cooldown window of `now`;
`createdAt` is never consulted, so a non-pending matching alert with no
`lastSentAt` does not suppress, whatever its `createdAt`. -/
theorem detectAlerts_suppression_iff (views : List ItemPlanningView)
    (ea : List InventoryAlert) (settings : Settings) (now : ℚ) (v : ItemPlanningView)
    (t : AlertType) (hv : v ∈ views) (hq : qualifiesFor v t) :
    (∃ b ∈ detectAlerts views ea settings now, b.itemId = v.item.id ∧ b.type = t) ↔
      ¬∃ a ∈ ea, a.itemId = v.item.id ∧ a.type = t ∧
        (a.status = AlertStatus.pending ∨
          ∃ ts, a.lastSentAt = some ts ∧
            (now - ts) / (1000 * 3600) < settings.notificationCooldownHours) := by
  constructor
  · rintro ⟨b, hb, hbid, hbt⟩ ⟨a, ha, haid, hat, hcase⟩
    have hpa : isRecentAlertPred b.itemId b.type now settings.notificationCooldownHours a =
        true := by
      rw [isRecentAlertPred_iff]
      exact ⟨haid.trans hbid.symm, hat.trans hbt.symm, hcase⟩
    have hres := detect_emitted_imp hb
    exact (List.find?_eq_none.mp hres.1) a ha hpa
  · intro hno
    have hfind : ea.find?
        (isRecentAlertPred v.item.id t now settings.notificationCooldownHours) = none := by
      rw [List.find?_eq_none]
      intro a ha hpa
      rw [isRecentAlertPred_iff] at hpa
      exact hno ⟨a, ha, hpa⟩
    obtain ⟨b, hbmem, hbid, hbt, _⟩ := detect_emit_of_find_none hv hq hfind
    exact ⟨b, hbmem, hbid, hbt⟩

unseal Rat.mul Rat.inv Rat.add Rat.sub Rat.ofScientific in
theorem detectAlerts_suppression_iff_witness :
    (∃ b ∈ detectAlerts [viewB] [alertNoTsA] sampleSettings 0,
        b.itemId = viewB.item.id ∧ b.type = AlertType.lowStock) ↔
      ¬∃ a ∈ [alertNoTsA], a.itemId = viewB.item.id ∧ a.type = AlertType.lowStock ∧
        (a.status = AlertStatus.pending ∨
          ∃ ts, a.lastSentAt = some ts ∧
            ((0 : ℚ) - ts) / (1000 * 3600) < sampleSettings.notificationCooldownHours) :=
  detectAlerts_suppression_iff [viewB] [alertNoTsA] sampleSettings 0 viewB
    AlertType.lowStock (by decide) rfl
